import Mathlib

/-!
Verification of the ProctorClock analog-clock program.

The repository holds two near-duplicate implementations:
`src/Analog_Clock.py` (classes `mapper`, `clock`) and
`src/proctor_clock.py` (classes `Mapper`, `Clock`).  This file embeds the
coordinate mapper, the clock-offset state operations, the hand-angle
geometry of the redraw routine, and the draw-command sequences of both
`painthms` / `paint_hms` routines, and proves or refutes the claimed
properties.  Python floats are modelled exactly: the mapper arithmetic is
stated over a linearly ordered field (instantiated at `ℚ` for executable
statements and at `ℝ` for the trigonometric layer).  Python's `%` on
integers with a positive modulus agrees with `Int.emod`.
-/

namespace ProctorClock

/-- An axis-aligned rectangle `(xmin, ymin, xmax, ymax)`, the 4-tuple that
both mapper constructors unpack (`x_min, y_min, x_max, y_max = self.world`). -/
structure Rect (α : Type) where
  xmin : α
  ymin : α
  xmax : α
  ymax : α
deriving DecidableEq, Repr

/-- The state computed by `mapper.__init__` in `src/Analog_Clock.py`:
the uniform scale factor `self.f` and the offsets `self.c_1`, `self.c_2`. -/
structure mapper (α : Type) where
  f : α
  c_1 : α
  c_2 : α
deriving DecidableEq, Repr

/-- The arithmetic of `mapper.__init__` (src/Analog_Clock.py lines 51-69):
`f_x = (X_max-X_min)/(x_max-x_min)`, `f_y = (Y_max-Y_min)/(y_max-y_min)`,
`f = min(f_x, f_y)`, `c_1 = X_c - f*x_c`, `c_2 = Y_c - f*y_c` with the
centers `x_c = 0.5*(x_min+x_max)` etc. -/
def mapperNew {α : Type} [Field α] [LinearOrder α] (world viewport : Rect α) : mapper α :=
  let f_x := (viewport.xmax - viewport.xmin) / (world.xmax - world.xmin)
  let f_y := (viewport.ymax - viewport.ymin) / (world.ymax - world.ymin)
  let f := min f_x f_y
  let x_c := (1 / 2 : α) * (world.xmin + world.xmax)
  let y_c := (1 / 2 : α) * (world.ymin + world.ymax)
  let x_C := (1 / 2 : α) * (viewport.xmin + viewport.xmax)
  let y_C := (1 / 2 : α) * (viewport.ymin + viewport.ymax)
  { f := f, c_1 := x_C - f * x_c, c_2 := y_C - f * y_c }

/-- `mapper.__init__` as a fallible constructor: the two Python float
divisions raise `ZeroDivisionError` exactly when a world extent is zero
(the viewport extents are only numerators and never raise).  `none`
models the raised exception. -/
def mapperInit {α : Type} [Field α] [LinearOrder α] [DecidableEq α]
    (world viewport : Rect α) : Option (mapper α) :=
  if world.xmax - world.xmin = 0 ∨ world.ymax - world.ymin = 0 then none
  else some (mapperNew world viewport)

/-- `mapper.__windowToViewport` (src/Analog_Clock.py lines 81-84):
`X = f*x + c_1`, `Y = f*(-y) + c_2` (the y axis is flipped). -/
def windowToViewportAux {α : Type} [Field α] (m : mapper α) (x y : α) : α × α :=
  (m.f * x + m.c_1, m.f * (-y) + m.c_2)

/-- `mapper.windowToViewport` (src/Analog_Clock.py lines 92-93): maps two
points at once. -/
def windowToViewport {α : Type} [Field α] (m : mapper α) (x1 y1 x2 y2 : α) :
    (α × α) × (α × α) :=
  (windowToViewportAux m x1 y1, windowToViewportAux m x2 y2)

/-- The state computed by `Mapper.__init__` in `src/proctor_clock.py`:
`self.factor`, `self.c_1`, `self.c_2`. -/
structure Mapper (α : Type) where
  factor : α
  c_1 : α
  c_2 : α
deriving DecidableEq, Repr

/-- The arithmetic of `Mapper.__init__` (src/proctor_clock.py lines 55-80):
`x_factor`, `y_factor`, `self.factor = min(x_factor, y_factor)` and the
center offsets, written exactly as in that file. -/
def MapperNew {α : Type} [Field α] [LinearOrder α] (world viewport : Rect α) : Mapper α :=
  let x_factor := (viewport.xmax - viewport.xmin) / (world.xmax - world.xmin)
  let y_factor := (viewport.ymax - viewport.ymin) / (world.ymax - world.ymin)
  let factor := min x_factor y_factor
  let x_center_world := (1 / 2 : α) * (world.xmin + world.xmax)
  let y_center_world := (1 / 2 : α) * (world.ymin + world.ymax)
  let x_center_viewport := (1 / 2 : α) * (viewport.xmin + viewport.xmax)
  let y_center_viewport := (1 / 2 : α) * (viewport.ymin + viewport.ymax)
  { factor := factor,
    c_1 := x_center_viewport - factor * x_center_world,
    c_2 := y_center_viewport - factor * y_center_world }

/-- `Mapper._window_to_viewport` (src/proctor_clock.py lines 92-95). -/
def window_to_viewportAux {α : Type} [Field α] (m : Mapper α) (x_world y_world : α) : α × α :=
  (m.factor * x_world + m.c_1, m.factor * (-y_world) + m.c_2)

/-- `Mapper.window_to_viewport` (src/proctor_clock.py lines 103-106). -/
def window_to_viewport {α : Type} [Field α] (m : Mapper α)
    (x_world_1 y_world_1 x_world_2 y_world_2 : α) : (α × α) × (α × α) :=
  (window_to_viewportAux m x_world_1 y_world_1, window_to_viewportAux m x_world_2 y_world_2)

/-- The mathematical inverse of the window-to-viewport map.  The source
implements only the forward direction; this definition witnesses the
invertibility property claimed of it. -/
def inverseViewportToWindow {α : Type} [Field α] (m : mapper α) (X Y : α) : α × α :=
  ((X - m.c_1) / m.f, -((Y - m.c_2) / m.f))

/-- C1: for every world and viewport rectangle with min < max on both axes,
construction succeeds and yields `f = min(fx, fy)` with the claimed scale
factors, and the point map sends `(x, y)` to exactly `(f*x + c_1, -(f*y) + c_2)`
with the offsets fixed at construction; the map is a pure function of the
rectangles and the point. -/
theorem C1_mapper_formula (world viewport : Rect ℚ) (x y : ℚ)
    (hw1 : world.xmin < world.xmax) (hw2 : world.ymin < world.ymax)
    (hv1 : viewport.xmin < viewport.xmax) (hv2 : viewport.ymin < viewport.ymax) :
    mapperInit world viewport = some (mapperNew world viewport) ∧
    (mapperNew world viewport).f =
      min ((viewport.xmax - viewport.xmin) / (world.xmax - world.xmin))
        ((viewport.ymax - viewport.ymin) / (world.ymax - world.ymin)) ∧
    windowToViewportAux (mapperNew world viewport) x y =
      ((mapperNew world viewport).f * x + (mapperNew world viewport).c_1,
        -((mapperNew world viewport).f * y) + (mapperNew world viewport).c_2) := by
  refine ⟨?_, rfl, ?_⟩
  · rw [mapperInit, if_neg]
    push_neg
    exact ⟨sub_ne_zero_of_ne hw1.ne', sub_ne_zero_of_ne hw2.ne'⟩
  · simp [windowToViewportAux, mul_neg]

/-- C1 witness: the theorem instantiated at world `(-1,-1,1,1)`,
viewport `(0,0,400,400)` and point `(2,3)`. -/
theorem C1_mapper_formula_witness :
    mapperInit (⟨-1, -1, 1, 1⟩ : Rect ℚ) (⟨0, 0, 400, 400⟩ : Rect ℚ) =
      some (mapperNew (⟨-1, -1, 1, 1⟩ : Rect ℚ) (⟨0, 0, 400, 400⟩ : Rect ℚ)) ∧
    (mapperNew (⟨-1, -1, 1, 1⟩ : Rect ℚ) (⟨0, 0, 400, 400⟩ : Rect ℚ)).f =
      min ((400 - 0) / (1 - (-1) : ℚ)) ((400 - 0) / (1 - (-1) : ℚ)) ∧
    windowToViewportAux (mapperNew (⟨-1, -1, 1, 1⟩ : Rect ℚ) (⟨0, 0, 400, 400⟩ : Rect ℚ)) 2 3 =
      ((mapperNew (⟨-1, -1, 1, 1⟩ : Rect ℚ) (⟨0, 0, 400, 400⟩ : Rect ℚ)).f * 2 +
          (mapperNew (⟨-1, -1, 1, 1⟩ : Rect ℚ) (⟨0, 0, 400, 400⟩ : Rect ℚ)).c_1,
        -((mapperNew (⟨-1, -1, 1, 1⟩ : Rect ℚ) (⟨0, 0, 400, 400⟩ : Rect ℚ)).f * 3) +
          (mapperNew (⟨-1, -1, 1, 1⟩ : Rect ℚ) (⟨0, 0, 400, 400⟩ : Rect ℚ)).c_2) :=
  C1_mapper_formula ⟨-1, -1, 1, 1⟩ ⟨0, 0, 400, 400⟩ 2 3
    (by norm_num) (by norm_num) (by norm_num) (by norm_num)

/-- C2 counterexample: for world `(0,0,2,2)` and viewport `(0,0,4,4)` (both
non-degenerate), the world center `(1,1)` maps to `(2,-2)`, not to the
viewport center `(2,2)`, and the world point `(0,0)` maps to `(0,0)`, not to
the viewport center either: the y-axis flip breaks centering whenever the
world is not centered at the origin. -/
theorem C2_center_counterexample :
    windowToViewportAux (mapperNew (⟨0, 0, 2, 2⟩ : Rect ℚ) (⟨0, 0, 4, 4⟩ : Rect ℚ)) 1 1 ≠
      (2, 2) ∧
    windowToViewportAux (mapperNew (⟨0, 0, 2, 2⟩ : Rect ℚ) (⟨0, 0, 4, 4⟩ : Rect ℚ)) 0 0 ≠
      (2, 2) := by
  constructor <;> norm_num [windowToViewportAux, mapperNew, min_def, Prod.ext_iff]

/-- C2 amended: for every non-degenerate pair, the image of the world
center has x-coordinate exactly the viewport center's x-coordinate, while
its y-coordinate is `Yc - 2*f*yc` (the y-axis flip moves it off center by
`2*f*yc`); consequently when the world rectangle is centered at the origin
— as the clock's fixed world `(-1,-1,1,1)` is — world point `(0,0)` (the
world center) maps exactly to the viewport's geometric center. -/
theorem C2_center_mapping (world viewport : Rect ℚ)
    (hw1 : world.xmin < world.xmax) (hw2 : world.ymin < world.ymax)
    (hv1 : viewport.xmin < viewport.xmax) (hv2 : viewport.ymin < viewport.ymax) :
    mapperInit world viewport = some (mapperNew world viewport) ∧
    (windowToViewportAux (mapperNew world viewport)
        ((world.xmin + world.xmax) / 2) ((world.ymin + world.ymax) / 2)).1 =
      (viewport.xmin + viewport.xmax) / 2 ∧
    (windowToViewportAux (mapperNew world viewport)
        ((world.xmin + world.xmax) / 2) ((world.ymin + world.ymax) / 2)).2 =
      (viewport.ymin + viewport.ymax) / 2 -
        2 * (mapperNew world viewport).f * ((world.ymin + world.ymax) / 2) ∧
    (world.xmin + world.xmax = 0 → world.ymin + world.ymax = 0 →
      windowToViewportAux (mapperNew world viewport) 0 0 =
        ((viewport.xmin + viewport.xmax) / 2, (viewport.ymin + viewport.ymax) / 2)) := by
  refine ⟨?_, ?_, ?_, ?_⟩
  · rw [mapperInit, if_neg]
    push_neg
    exact ⟨sub_ne_zero_of_ne hw1.ne', sub_ne_zero_of_ne hw2.ne'⟩
  · simp only [windowToViewportAux, mapperNew]
    ring
  · simp only [windowToViewportAux, mapperNew]
    ring
  · intro hx hy
    simp only [windowToViewportAux, mapperNew, hx, hy]
    norm_num
    constructor <;> ring

/-- C2 witness: the amended theorem instantiated at the clock's own
world `(-1,-1,1,1)` (centered at the origin) and viewport `(25,25,375,375)`:
`(0,0)` maps to the viewport center `(200,200)`. -/
theorem C2_center_mapping_witness :
    windowToViewportAux (mapperNew (⟨-1, -1, 1, 1⟩ : Rect ℚ) (⟨25, 25, 375, 375⟩ : Rect ℚ)) 0 0 =
      ((25 + 375) / 2, (25 + 375) / 2) :=
  (C2_center_mapping ⟨-1, -1, 1, 1⟩ ⟨25, 25, 375, 375⟩
    (by norm_num) (by norm_num) (by norm_num) (by norm_num)).2.2.2 (by norm_num) (by norm_num)

/-- C3 counterexample: constructing the mapper with the non-degenerate
world `(-1,-1,1,1)` but the degenerate viewport `(0,0,0,400)` (zero width,
`Xmax = Xmin`) does not fail at all — the claim says it must. -/
theorem C3_degenerate_counterexample :
    mapperInit (⟨-1, -1, 1, 1⟩ : Rect ℚ) (⟨0, 0, 0, 400⟩ : Rect ℚ) ≠ none := by
  rw [mapperInit, if_neg (by norm_num)]
  exact Option.some_ne_none _

/-- C3 amended: construction fails (Python raises `ZeroDivisionError`, an
arithmetic fault rather than a descriptive dimension error) exactly when
the WORLD rectangle is degenerate; a degenerate viewport with a
non-degenerate world is not defended against: construction succeeds and,
e.g. for world `(-1,-1,1,1)` and viewport `(0,0,0,400)`, yields the garbage
scale factor `0` that collapses all geometry. -/
theorem C3_degenerate_world_only (world viewport : Rect ℚ) :
    (mapperInit world viewport = none ↔
      world.xmax - world.xmin = 0 ∨ world.ymax - world.ymin = 0) ∧
    (mapperNew (⟨-1, -1, 1, 1⟩ : Rect ℚ) (⟨0, 0, 0, 400⟩ : Rect ℚ)).f = 0 := by
  constructor
  · rw [mapperInit]
    by_cases h : world.xmax - world.xmin = 0 ∨ world.ymax - world.ymin = 0
    · simp [h]
    · simp [h]
  · norm_num [mapperNew, min_def]

/-- C3 witness: the amended theorem applied at a concrete degenerate world
`(1,2,1,5)` (zero width): construction fails. -/
theorem C3_degenerate_world_only_witness :
    mapperInit (⟨1, 2, 1, 5⟩ : Rect ℚ) (⟨0, 0, 4, 4⟩ : Rect ℚ) = none :=
  (C3_degenerate_world_only ⟨1, 2, 1, 5⟩ ⟨0, 0, 4, 4⟩).1.mpr (Or.inl (by norm_num))

/-- C4: for positive extents on every axis the map is affine with positive
scale factor, and the explicit inverse undoes it exactly (both round
trips), over the rationals. -/
theorem C4_affine_invertible (world viewport : Rect ℚ) (x y : ℚ)
    (hw1 : 0 < world.xmax - world.xmin) (hw2 : 0 < world.ymax - world.ymin)
    (hv1 : 0 < viewport.xmax - viewport.xmin) (hv2 : 0 < viewport.ymax - viewport.ymin) :
    mapperInit world viewport = some (mapperNew world viewport) ∧
    0 < (mapperNew world viewport).f ∧
    windowToViewportAux (mapperNew world viewport) x y =
      ((mapperNew world viewport).f * x + (mapperNew world viewport).c_1,
        -((mapperNew world viewport).f * y) + (mapperNew world viewport).c_2) ∧
    inverseViewportToWindow (mapperNew world viewport)
        (windowToViewportAux (mapperNew world viewport) x y).1
        (windowToViewportAux (mapperNew world viewport) x y).2 = (x, y) ∧
    (∀ X Y : ℚ,
      windowToViewportAux (mapperNew world viewport)
          (inverseViewportToWindow (mapperNew world viewport) X Y).1
          (inverseViewportToWindow (mapperNew world viewport) X Y).2 = (X, Y)) := by
  have hf : 0 < (mapperNew world viewport).f := by
    simp only [mapperNew, lt_min_iff]
    exact ⟨div_pos hv1 hw1, div_pos hv2 hw2⟩
  have hf0 : (mapperNew world viewport).f ≠ 0 := ne_of_gt hf
  refine ⟨?_, hf, ?_, ?_, ?_⟩
  · rw [mapperInit, if_neg]
    push_neg
    exact ⟨ne_of_gt hw1, ne_of_gt hw2⟩
  · simp [windowToViewportAux, mul_neg]
  · simp only [windowToViewportAux, inverseViewportToWindow, Prod.ext_iff]
    refine ⟨?_, ?_⟩ <;> field_simp <;> ring
  · intro X Y
    simp only [windowToViewportAux, inverseViewportToWindow, Prod.ext_iff]
    refine ⟨?_, ?_⟩ <;> field_simp <;> ring

/-- C4 witness: the theorem instantiated at world `(-1,-1,1,1)`, viewport
`(25,25,375,375)` and point `(1/3, -2/5)`; the round trip returns the point. -/
theorem C4_affine_invertible_witness :
    inverseViewportToWindow (mapperNew (⟨-1, -1, 1, 1⟩ : Rect ℚ) (⟨25, 25, 375, 375⟩ : Rect ℚ))
        (windowToViewportAux (mapperNew (⟨-1, -1, 1, 1⟩ : Rect ℚ)
          (⟨25, 25, 375, 375⟩ : Rect ℚ)) (1 / 3) (-2 / 5)).1
        (windowToViewportAux (mapperNew (⟨-1, -1, 1, 1⟩ : Rect ℚ)
          (⟨25, 25, 375, 375⟩ : Rect ℚ)) (1 / 3) (-2 / 5)).2 = (1 / 3, -2 / 5) :=
  (C4_affine_invertible ⟨-1, -1, 1, 1⟩ ⟨25, 25, 375, 375⟩ (1 / 3) (-2 / 5)
    (by norm_num) (by norm_num) (by norm_num) (by norm_num)).2.2.2.1

/-- C5 counterexample: for world `(-1,-1,1,1)` and viewport `(0,0,400,400)`
the scale factor is not `1.0` — it is `min(400/2, 400/2) = 200`. -/
theorem C5_scale_counterexample :
    (mapperNew (⟨-1, -1, 1, 1⟩ : Rect ℚ) (⟨0, 0, 400, 400⟩ : Rect ℚ)).f ≠ 1 := by
  norm_num [mapperNew, min_def]

/-- C5 amended: constructing the mapper with world `(-1,-1,1,1)` and
viewport `(0,0,400,400)` succeeds and yields scale factor `200` (not
`1.0`), and that mapper does map world point `(1,0)` to screen point
`(400, 200)` as claimed. -/
theorem C5_concrete_mapping :
    mapperInit (⟨-1, -1, 1, 1⟩ : Rect ℚ) (⟨0, 0, 400, 400⟩ : Rect ℚ) =
      some (mapperNew (⟨-1, -1, 1, 1⟩ : Rect ℚ) (⟨0, 0, 400, 400⟩ : Rect ℚ)) ∧
    (mapperNew (⟨-1, -1, 1, 1⟩ : Rect ℚ) (⟨0, 0, 400, 400⟩ : Rect ℚ)).f = 200 ∧
    windowToViewportAux (mapperNew (⟨-1, -1, 1, 1⟩ : Rect ℚ) (⟨0, 0, 400, 400⟩ : Rect ℚ)) 1 0 =
      (400, 200) := by
  refine ⟨?_, ?_, ?_⟩
  · norm_num [mapperInit]
  · norm_num [mapperNew, min_def]
  · norm_num [windowToViewportAux, mapperNew, min_def, Prod.ext_iff]

/-- The mutable offset state of the `clock` class: `self.dMinutes` and
`self.dHours` (Python ints, unbounded; both start at 0). -/
structure ClockState where
  dHours : ℤ
  dMinutes : ℤ
deriving DecidableEq, Repr

/-- `clock.seekTime` (src/Analog_Clock.py lines 236-239): adds the deltas
to the stored offsets (the subsequent `redraw` call has no state effect). -/
def seekTime (s : ClockState) (dh dm : ℤ) : ClockState :=
  { dHours := s.dHours + dh, dMinutes := s.dMinutes + dm }

/-- `clock.addMinute`: `seekTime(dm = 1)`. -/
def addMinute (s : ClockState) : ClockState := seekTime s 0 1

/-- `clock.subtractMinute`: `seekTime(dm = -1)`. -/
def subtractMinute (s : ClockState) : ClockState := seekTime s 0 (-1)

/-- `clock.addHour`: `seekTime(dh = 1)`. -/
def addHour (s : ClockState) : ClockState := seekTime s 1 0

/-- `clock.subtractHour`: `seekTime(dh = -1)`. -/
def subtractHour (s : ClockState) : ClockState := seekTime s (-1) 0

/-- `clock.resetTime` (src/Analog_Clock.py lines 253-257): sets both
offsets to zero, independently of the current state. -/
def resetTime (_s : ClockState) : ClockState := { dHours := 0, dMinutes := 0 }

/-- The displayed minute computed in `painthms`
(src/Analog_Clock.py line 265): `m = (m + self.dMinutes) % 60`.  Python's
`%` with a positive modulus agrees with `Int.emod`. -/
def displayedMinute (sysM : ℤ) (s : ClockState) : ℤ := (sysM + s.dMinutes) % 60

/-- The displayed hour computed in `painthms`
(src/Analog_Clock.py line 266): `h = (h + self.dHours) % 12`. -/
def displayedHour (sysH : ℤ) (s : ClockState) : ℤ := (sysH + s.dHours) % 12

/-- Python's `'%02i' % n` for the nonnegative values the title uses. -/
def pad2 (n : ℤ) : String := if n < 10 then "0" ++ toString n else toString n

/-- The window title set in `painthms` (src/Analog_Clock.py line 267):
`'%02i:%02i:%02i' % (h, m, s)`. -/
def titleString (h m s : ℤ) : String := pad2 h ++ ":" ++ pad2 m ++ ":" ++ pad2 s

/-- One key-driven offset operation of the `clock` class. -/
inductive TimeOp where
  | addMin : TimeOp
  | subMin : TimeOp
  | addHr : TimeOp
  | subHr : TimeOp
deriving DecidableEq, Repr

/-- Dispatch of one operation to its handler. -/
def applyOp (s : ClockState) : TimeOp → ClockState
  | TimeOp.addMin => addMinute s
  | TimeOp.subMin => subtractMinute s
  | TimeOp.addHr => addHour s
  | TimeOp.subHr => subtractHour s

/-- A finite sequence of key-driven offset operations, applied in order. -/
def applyOps (s : ClockState) (ops : List TimeOp) : ClockState :=
  ops.foldl applyOp s

/-- Iterating `addMinute` adds `n` to the minute offset and leaves the hour
offset unchanged. -/
theorem addMinute_iterate (s : ClockState) (n : ℕ) :
    addMinute^[n] s = { dHours := s.dHours, dMinutes := s.dMinutes + n } := by
  induction n with
  | zero => simp
  | succ k ih =>
    rw [Function.iterate_succ_apply', ih]
    simp only [addMinute, seekTime, ClockState.mk.injEq]
    constructor <;> push_cast <;> omega

/-- C7: for every system time and every initial pair of stored offsets,
advancing the minute 60 times leaves both the displayed minute and the
displayed hour unchanged (the minute wrap is modulo 60 and independent of
the hour; no carry). -/
theorem C7_advance_sixty_minutes (s : ClockState) (sysH sysM : ℤ) :
    displayedMinute sysM (addMinute^[60] s) = displayedMinute sysM s ∧
    displayedHour sysH (addMinute^[60] s) = displayedHour sysH s := by
  rw [addMinute_iterate]
  constructor
  · simp only [displayedMinute]
    omega
  · simp only [displayedHour]

/-- C8: after any finite sequence of advance/retreat operations, resetting
returns the state to zero offsets, so the displayed hour, minute, title and
hand angles all equal those of the untouched zero-offset state on the same
system time. -/
theorem C8_reset_restores (ops : List TimeOp) (s : ClockState) (sysH sysM sysS : ℤ) :
    resetTime (applyOps s ops) = { dHours := 0, dMinutes := 0 } ∧
    displayedHour sysH (resetTime (applyOps s ops)) =
      displayedHour sysH { dHours := 0, dMinutes := 0 } ∧
    displayedMinute sysM (resetTime (applyOps s ops)) =
      displayedMinute sysM { dHours := 0, dMinutes := 0 } ∧
    titleString (displayedHour sysH (resetTime (applyOps s ops)))
        (displayedMinute sysM (resetTime (applyOps s ops))) sysS =
      titleString (sysH % 12) (sysM % 60) sysS := by
  refine ⟨rfl, rfl, rfl, ?_⟩
  simp [displayedHour, displayedMinute, resetTime]

/-- C10: whatever the integer offsets (negative or arbitrarily large), the
displayed minute always lies in `[0, 60)` and the displayed hour in
`[0, 12)`; the title's hour field is never the string `"12"` (system hour
12 with zero offsets is shown as `"00"`); and retreating one minute from a
state displaying minute 0 displays minute 59. -/
theorem C10_display_invariants (s : ClockState) (sysH sysM : ℤ) :
    0 ≤ displayedMinute sysM s ∧ displayedMinute sysM s < 60 ∧
    0 ≤ displayedHour sysH s ∧ displayedHour sysH s < 12 ∧
    pad2 (displayedHour sysH s) ≠ "12" ∧
    pad2 (displayedHour 12 { dHours := 0, dMinutes := 0 }) = "00" ∧
    (displayedMinute sysM s = 0 → displayedMinute sysM (subtractMinute s) = 59) := by
  have hm0 : 0 ≤ displayedMinute sysM s := Int.emod_nonneg _ (by norm_num)
  have hm1 : displayedMinute sysM s < 60 := Int.emod_lt_of_pos _ (by norm_num)
  have hh0 : 0 ≤ displayedHour sysH s := Int.emod_nonneg _ (by norm_num)
  have hh1 : displayedHour sysH s < 12 := Int.emod_lt_of_pos _ (by norm_num)
  refine ⟨hm0, hm1, hh0, hh1, ?_, ?_, ?_⟩
  · set n := displayedHour sysH s with hn
    interval_cases n <;> decide
  · decide
  · intro h0
    simp only [displayedMinute, subtractMinute, seekTime] at h0 ⊢
    omega

/-- C10 witness: at zero offsets and system minute 0, retreating one minute
displays minute 59. -/
theorem C10_display_invariants_witness :
    displayedMinute 0 (subtractMinute { dHours := 0, dMinutes := 0 }) = 59 :=
  (C10_display_invariants { dHours := 0, dMinutes := 0 } 0 0).2.2.2.2.2.2 (by decide)

/-- The hour-hand angle computed in `painthms` (src/Analog_Clock.py
line 268): `angle = pi/2 - pi/6 * (h + m/60.0)`, in radians. -/
noncomputable def hourAngle (h m : ℤ) : ℝ :=
  Real.pi / 2 - Real.pi / 6 * ((h : ℝ) + (m : ℝ) / 60)

/-- The minute-hand angle (src/Analog_Clock.py line 273):
`angle = pi/2 - pi/30 * (m + s/60.0)`. -/
noncomputable def minuteAngle (m s : ℤ) : ℝ :=
  Real.pi / 2 - Real.pi / 30 * ((m : ℝ) + (s : ℝ) / 60)

/-- The second-hand angle (src/Analog_Clock.py line 277):
`angle = pi/2 - pi/30 * s`. -/
noncomputable def secondAngle (s : ℤ) : ℝ :=
  Real.pi / 2 - Real.pi / 30 * (s : ℝ)

/-- The hour-hand endpoint (src/Analog_Clock.py line 269):
`x, y = cos(angle)*0.60, sin(angle)*0.60`. -/
noncomputable def hourHandEnd (h m : ℤ) : ℝ × ℝ :=
  (Real.cos (hourAngle h m) * 0.60, Real.sin (hourAngle h m) * 0.60)

/-- The minute-hand endpoint (src/Analog_Clock.py line 274):
`x, y = cos(angle)*0.90, sin(angle)*0.90`. -/
noncomputable def minuteHandEnd (m s : ℤ) : ℝ × ℝ :=
  (Real.cos (minuteAngle m s) * 0.90, Real.sin (minuteAngle m s) * 0.90)

/-- The second-hand endpoint (src/Analog_Clock.py line 278):
`x, y = cos(angle)*0.95, sin(angle)*0.95`. -/
noncomputable def secondHandEnd (s : ℤ) : ℝ × ℝ :=
  (Real.cos (secondAngle s) * 0.95, Real.sin (secondAngle s) * 0.95)

/-- Conversion of an angle given in degrees to radians, used to state the
spec's degree-based angle formulas. -/
noncomputable def degToRad (d : ℚ) : ℝ := (d : ℝ) * Real.pi / 180

/-- C6: for every displayed hour in `[0,12)`, minute and second in `[0,60)`,
the redraw's radian angles equal the spec's degree formulas
`90 - 30*(h + m/60)`, `90 - 6*(m + s/60)` and `90 - 6*s` converted to
radians; each hand endpoint is its length times `(cos angle, sin angle)`
with lengths `0.60`, `0.90`, `0.95`; and the hour-hand angle at
`h = 3, m = 0` equals the second-hand angle at `s = 15`, namely `0`
(pointing right). -/
theorem C6_hand_angles (h m s : ℤ)
    (hh : 0 ≤ h ∧ h < 12) (hm : 0 ≤ m ∧ m < 60) (hs : 0 ≤ s ∧ s < 60) :
    hourAngle h m = degToRad (90 - 30 * ((h : ℚ) + (m : ℚ) / 60)) ∧
    minuteAngle m s = degToRad (90 - 6 * ((m : ℚ) + (s : ℚ) / 60)) ∧
    secondAngle s = degToRad (90 - 6 * (s : ℚ)) ∧
    hourHandEnd h m =
      (0.60 * Real.cos (hourAngle h m), 0.60 * Real.sin (hourAngle h m)) ∧
    minuteHandEnd m s =
      (0.90 * Real.cos (minuteAngle m s), 0.90 * Real.sin (minuteAngle m s)) ∧
    secondHandEnd s =
      (0.95 * Real.cos (secondAngle s), 0.95 * Real.sin (secondAngle s)) ∧
    hourAngle 3 0 = secondAngle 15 ∧
    secondAngle 15 = 0 := by
  refine ⟨?_, ?_, ?_, ?_, ?_, ?_, ?_, ?_⟩
  · rw [hourAngle, degToRad]
    push_cast
    ring
  · rw [minuteAngle, degToRad]
    push_cast
    ring
  · rw [secondAngle, degToRad]
    push_cast
    ring
  · rw [hourHandEnd, Prod.mk.injEq]
    exact ⟨mul_comm _ _, mul_comm _ _⟩
  · rw [minuteHandEnd, Prod.mk.injEq]
    exact ⟨mul_comm _ _, mul_comm _ _⟩
  · rw [secondHandEnd, Prod.mk.injEq]
    exact ⟨mul_comm _ _, mul_comm _ _⟩
  · rw [hourAngle, secondAngle]
    push_cast
    ring
  · rw [secondAngle]
    push_cast
    ring

/-- C6 witness: the theorem applied at `h = 3, m = 0, s = 15`; the two
angles coincide at the value `0`. -/
theorem C6_hand_angles_witness :
    hourAngle 3 0 = secondAngle 15 ∧ secondAngle 15 = 0 :=
  ⟨(C6_hand_angles 3 0 15 (by decide) (by decide) (by decide)).2.2.2.2.2.2.1,
    (C6_hand_angles 3 0 15 (by decide) (by decide) (by decide)).2.2.2.2.2.2.2⟩

/-- One canvas draw command issued by the redraw routines: a
`create_line` with its two screen points, fill color, tag, optional
`width` and optional `arrow` keyword, or a `create_oval`. -/
inductive DrawCmd where
  | line : (ℝ × ℝ) × (ℝ × ℝ) → String → String → Option ℝ → Option String → DrawCmd
  | oval : (ℝ × ℝ) × (ℝ × ℝ) → String → DrawCmd

/-- `clock.painthms` (src/Analog_Clock.py lines 261-280) as a function of
the mapper, the padding, the `timecolor`, the system time fields and the
offset state: returns the new window title and the three `create_line`
commands in issue order.  The second hand is drawn with `timecolor`, no
`width` keyword and `arrow = 'last'`. -/
noncomputable def painthms (T : mapper ℝ) (pad : ℝ) (timecolor : String)
    (sysH sysM sysS : ℤ) (st : ClockState) : String × List DrawCmd :=
  let m := displayedMinute sysM st
  let h := displayedHour sysH st
  (titleString h m sysS,
    [DrawCmd.line (windowToViewport T 0 0 (hourHandEnd h m).1 (hourHandEnd h m).2)
        timecolor "handles" (some (pad / 3)) none,
      DrawCmd.line (windowToViewport T 0 0 (minuteHandEnd m sysS).1 (minuteHandEnd m sysS).2)
        timecolor "handles" (some (pad / 5)) none,
      DrawCmd.line (windowToViewport T 0 0 (secondHandEnd sysS).1 (secondHandEnd sysS).2)
        timecolor "handles" none (some "last")])

/-- `Clock.paint_hms` (src/proctor_clock.py lines 289-315), same shape but
using that file's `Mapper`; the second hand is drawn with `secondcolor`,
`width = pad/15` and no `arrow` keyword. -/
noncomputable def paint_hms (T : Mapper ℝ) (pad : ℝ) (timecolor secondcolor : String)
    (sysH sysM sysS : ℤ) (st : ClockState) : String × List DrawCmd :=
  let minute := displayedMinute sysM st
  let hour := displayedHour sysH st
  (titleString hour minute sysS,
    [DrawCmd.line (window_to_viewport T 0 0 (hourHandEnd hour minute).1 (hourHandEnd hour minute).2)
        timecolor "handles" (some (pad / 3)) none,
      DrawCmd.line (window_to_viewport T 0 0 (minuteHandEnd minute sysS).1 (minuteHandEnd minute sysS).2)
        timecolor "handles" (some (pad / 5)) none,
      DrawCmd.line (window_to_viewport T 0 0 (secondHandEnd sysS).1 (secondHandEnd sysS).2)
        secondcolor "handles" (some (pad / 15)) none])

/-- C9 counterexample: even with the second-hand fill color forced equal
(both `"#ffffff"`), the two routines issue different command lists at the
same concrete state — `paint_hms` gives the second hand `width = pad/15`
and no arrow, `painthms` gives it no width and `arrow = 'last'` — so the
implementations do not differ only in the second hand's fill color. -/
theorem C9_equivalence_counterexample :
    (paint_hms (MapperNew (⟨-1, -1, 1, 1⟩ : Rect ℝ) (⟨25, 25, 375, 375⟩ : Rect ℝ))
        25 "#ffffff" "#ffffff" 0 0 0 { dHours := 0, dMinutes := 0 }).2 ≠
      (painthms (mapperNew (⟨-1, -1, 1, 1⟩ : Rect ℝ) (⟨25, 25, 375, 375⟩ : Rect ℝ))
        25 "#ffffff" 0 0 0 { dHours := 0, dMinutes := 0 }).2 := by
  intro hEq
  simp [paint_hms, painthms] at hEq

/-- C9 amended: the two mapper classes compute identical scale factors,
offsets and point maps for all inputs, and for the same state, time,
padding and colors the two routines produce the same title and the same
hour- and minute-hand commands; the second-hand commands share their
screen endpoints and tag but differ in fill color (`secondcolor` versus
`timecolor`), in line width (`pad/15` versus none) and in the arrow option
(none versus `'last'`). -/
theorem C9_equivalence (world viewport : Rect ℝ) (pad : ℝ)
    (timecolor secondcolor : String) (sysH sysM sysS : ℤ) (st : ClockState) :
    (MapperNew world viewport).factor = (mapperNew world viewport).f ∧
    (MapperNew world viewport).c_1 = (mapperNew world viewport).c_1 ∧
    (MapperNew world viewport).c_2 = (mapperNew world viewport).c_2 ∧
    (∀ x1 y1 x2 y2 : ℝ,
      window_to_viewport (MapperNew world viewport) x1 y1 x2 y2 =
        windowToViewport (mapperNew world viewport) x1 y1 x2 y2) ∧
    (paint_hms (MapperNew world viewport) pad timecolor secondcolor sysH sysM sysS st).1 =
      (painthms (mapperNew world viewport) pad timecolor sysH sysM sysS st).1 ∧
    (∃ cmd1 cmd2 pts,
      (painthms (mapperNew world viewport) pad timecolor sysH sysM sysS st).2 =
        [cmd1, cmd2, DrawCmd.line pts timecolor "handles" none (some "last")] ∧
      (paint_hms (MapperNew world viewport) pad timecolor secondcolor sysH sysM sysS st).2 =
        [cmd1, cmd2, DrawCmd.line pts secondcolor "handles" (some (pad / 15)) none]) := by
  refine ⟨rfl, rfl, rfl, fun x1 y1 x2 y2 => rfl, rfl, ?_⟩
  exact ⟨_, _, _, rfl, rfl⟩

end ProctorClock
